import Mathlib

/-!
Verification of the typed-response core of `bevy_http_client`
(`src/typed.rs`): the per-type transition watcher `handle_typed_response`,
the `TypedResponse<T>` holder with its `parse` accessor, and the
registration entry point `register_request_type`.

The embedding models the per-entity, per-type component view that the
watcher touches.  Bevy's deferred-command semantics is made explicit: a
system run reads a snapshot of the entity's components and emits a list of
commands; the commands are applied in order afterwards.  The `Added<C>`
query filter is modelled by a freshness flag that is consumed once the
watcher has run.
-/

namespace BevyHttpClient.Typed

/-- Model of `ehttp::Response` (external collaborator).  `text` holds the
result of `Response::text()`, i.e. the UTF-8 decode of the body bytes:
`some s` when the body decodes to text `s`, `none` otherwise.  The byte-level
representation is owned by the transport collaborator and abstracted here. -/
structure Response where
  status : Nat
  text : Option String
  deriving DecidableEq, Repr

/-- Model of `TypedResponse<T>` from `src/typed.rs`: holds
`result: Result<Response, String>`.  The phantom type parameter carries no
data and is dropped; the deserializer for `T` is passed to `parse`
explicitly. -/
structure TypedResponse where
  result : Except String Response
  deriving Repr

instance : DecidableEq TypedResponse := fun a b =>
  match a, b with
  | ⟨Except.ok ra⟩, ⟨Except.ok rb⟩ =>
    if h : ra = rb then isTrue (by rw [h])
    else isFalse (by intro hh; injection hh with h1; injection h1; contradiction)
  | ⟨Except.error ea⟩, ⟨Except.error eb⟩ =>
    if h : ea = eb then isTrue (by rw [h])
    else isFalse (by intro hh; injection hh with h1; injection h1; contradiction)
  | ⟨Except.ok _⟩, ⟨Except.error _⟩ =>
    isFalse (by intro hh; injection hh with h1; exact Except.noConfusion h1)
  | ⟨Except.error _⟩, ⟨Except.ok _⟩ =>
    isFalse (by intro hh; injection hh with h1; exact Except.noConfusion h1)

/-- Model of `TypedResponse::<T>::parse` from `src/typed.rs`:
if the stored result is `Ok(response)`, try `response.text()`; on `Some(s)`
try `serde_json::from_str::<T>(s)` (modelled by the `deserialize` argument,
the `Deserialize` impl for `T`); return the decoded value only on full
success, `none` in every other case. -/
def TypedResponse.parse {T : Type} (deserialize : String → Option T)
    (self : TypedResponse) : Option T :=
  match self.result with
  | Except.ok response =>
    match response.text with
    | some s =>
      match deserialize s with
      | some val => some val
      | none => none
    | none => none
  | Except.error _ => none

/-- A call of the accessor `parse` in Rust takes `&self`: it returns the
decoded option and leaves the holder untouched.  The pair makes the
borrow-and-return convention explicit. -/
def parseCall {T : Type} (deserialize : String → Option T)
    (self : TypedResponse) : Option T × TypedResponse :=
  (TypedResponse.parse deserialize self, self)

/-- The component state of one entity, seen by the watcher for one result
type `T`:
* `httpResponse` — the `HttpResponse` component (newtype over
  `ehttp::Response`), when present;
* `respAdded` — whether `Added<HttpResponse>` holds for this system on this
  tick (the component was added since this system last ran);
* `httpResponseError` — the `HttpResponseError` component (error message
  string), when present;
* `errAdded` — whether `Added<HttpResponseError>` holds;
* `requestType` — whether the `RequestType<T>` pending marker is present;
* `typedResponse` — the `TypedResponse<T>` component, when present. -/
structure EState where
  httpResponse : Option Response
  respAdded : Bool
  httpResponseError : Option String
  errAdded : Bool
  requestType : Bool
  typedResponse : Option TypedResponse
  deriving DecidableEq, Repr

/-- The deferred entity commands issued by `handle_typed_response`:
`commands.entity(e).insert(TypedResponse::<T> ...)` and
`.remove::<RequestType<T>>()`. -/
inductive Cmd where
  | insertTyped (tr : TypedResponse)
  | removeRequestType
  deriving DecidableEq, Repr

/-- Applying one deferred command to the entity's components: `insert`
overwrites any existing `TypedResponse<T>`, `remove` detaches the marker. -/
def applyCmd (s : EState) (c : Cmd) : EState :=
  match c with
  | Cmd.insertTyped tr => { s with typedResponse := some tr }
  | Cmd.removeRequestType => { s with requestType := false }

/-- Commands are applied in the order they were queued. -/
def applyCmds (s : EState) (cs : List Cmd) : EState :=
  cs.foldl applyCmd s

/-- Commands queued by the first loop of `handle_typed_response` (the
success pass): the query `Query<TypedRequestQuery<T>, Added<HttpResponse>>`
matches the entity iff it has an `HttpResponse` that was freshly added and
still holds `RequestType<T>`; for a match, queue the insert of
`TypedResponse` with `Ok(response.0.clone())` and the marker removal. -/
def successCmds (s : EState) : List Cmd :=
  match s.httpResponse with
  | some r =>
    if s.respAdded && s.requestType then
      [Cmd.insertTyped ⟨Except.ok r⟩, Cmd.removeRequestType]
    else []
  | none => []

/-- Commands queued by the second loop (the failure pass): the query
`Query<TypedFailedRequestQuery<T>, Added<HttpResponseError>>` matches iff a
freshly added `HttpResponseError` and the marker are present; queue the
insert of `TypedResponse` with `Err(message.clone())` and the marker
removal. -/
def failureCmds (s : EState) : List Cmd :=
  match s.httpResponseError with
  | some msg =>
    if s.errAdded && s.requestType then
      [Cmd.insertTyped ⟨Except.error msg⟩, Cmd.removeRequestType]
    else []
  | none => []

/-- One run of the system `handle_typed_response::<T>` on the entity's
snapshot: the success loop runs first, then the failure loop; both read the
same snapshot (commands are deferred), and the full command list is their
concatenation in program order. -/
def handle_typed_response (s : EState) : List Cmd :=
  successCmds s ++ failureCmds s

/-- After a system has run, the components it saw as `Added` are no longer
fresh for its next run. -/
def clearAdded (s : EState) : EState :=
  { s with respAdded := false, errAdded := false }

/-- One tick of the watcher on this entity: run `handle_typed_response` on
the snapshot, apply the queued commands in order, consume the freshness
flags. -/
def tick (s : EState) : EState :=
  clearAdded (applyCmds s (handle_typed_response s))

/-- Model of `register_request_type::<T>` from `src/typed.rs`: it adds the
system `handle_typed_response::<T>` to the `Update` schedule.  A schedule is
the list of per-entity system steps run each frame. -/
def register_request_type (sched : List (EState → EState)) :
    List (EState → EState) :=
  sched ++ [tick]

/-- Running one frame of a schedule on the entity's components: the
scheduled systems run in order. -/
def runSchedule (sched : List (EState → EState)) (s : EState) : EState :=
  sched.foldl (fun st sys => sys st) s

/-- Modelled from the spec (§5, §6; the transport collaborator's code is
outside `src/typed.rs`): between two runs of the watcher the external
collaborators may attach or clear raw carriers and their freshness flags,
and may remove — but not attach — the `RequestType<T>` pending marker
(cancellation); the `TypedResponse<T>` holder is written only by the
watcher for `T`, which is its sole writer. -/
def ExternalStep (s u : EState) : Prop :=
  u.typedResponse = s.typedResponse ∧ (u.requestType = true → s.requestType = true)

/-- The states reachable from `s` by interleaving watcher ticks with
external-collaborator steps. -/
inductive Reach : EState → EState → Prop
  | refl (s : EState) : Reach s s
  | watcher {s t : EState} : Reach s t → Reach s (tick t)
  | external {s t u : EState} : Reach s t → ExternalStep t u → Reach s u

/-- Modelled from the spec (§4.1, §5, §7): when `register_request_type::<T>`
was never called, no watcher for `T` is in the schedule; the world evolution
seen by the `(entity, T)` pair consists only of external-collaborator steps,
and no collaborator writes `RequestType<T>` or `TypedResponse<T>` — the
watcher for `T` would be their sole writer. -/
def UnregisteredStep (s u : EState) : Prop :=
  u.typedResponse = s.typedResponse ∧ u.requestType = s.requestType

/-- The states reachable when `T` was never registered: frames run the
schedule without a `T` watcher (modelled by the empty schedule for this
pair's components) and external collaborators step in between. -/
inductive UnregisteredReach : EState → EState → Prop
  | refl (s : EState) : UnregisteredReach s s
  | frame {s t : EState} : UnregisteredReach s t →
      UnregisteredReach s (runSchedule [] t)
  | external {s t u : EState} : UnregisteredReach s t → UnregisteredStep t u →
      UnregisteredReach s u

/-- The components of one entity relevant to two distinct registered result
types `T1 ≠ T2`: the raw carriers are shared, while the pending markers and
typed holders are per-type.  `respAdded2`/`errAdded2` are the freshness
flags as tracked for the `T2` watcher. -/
structure EState2 where
  httpResponse : Option Response
  httpResponseError : Option String
  respAdded2 : Bool
  errAdded2 : Bool
  requestType1 : Bool
  requestType2 : Bool
  typed1 : Option TypedResponse
  typed2 : Option TypedResponse
  deriving DecidableEq, Repr

/-- The view of the entity seen by the watcher for `T2`: its queries read
the shared carriers, its own freshness flags, `RequestType<T2>` and
`TypedResponse<T2>`; `RequestType<T1>` and `TypedResponse<T1>` are not part
of any of its query terms. -/
def viewT2 (w : EState2) : EState :=
  ⟨w.httpResponse, w.respAdded2, w.httpResponseError, w.errAdded2,
    w.requestType2, w.typed2⟩

/-- One run of `handle_typed_response::<T2>` on the two-type entity: it can
only write `TypedResponse<T2>` and remove `RequestType<T2>` (the only
component accesses in its command loops), so the `T1` components and the
carriers are carried over unchanged. -/
def tickT2 (w : EState2) : EState2 :=
  { w with respAdded2 := (tick (viewT2 w)).respAdded,
           errAdded2 := (tick (viewT2 w)).errAdded,
           requestType2 := (tick (viewT2 w)).requestType,
           typed2 := (tick (viewT2 w)).typedResponse }

/-- Modelled from the spec (§5): a step of anything other than the `T2`
watcher — the transport attaching carriers, the application, or the `T1`
watcher finalizing its own protocol.  None of these attach `RequestType<T2>`
or write `TypedResponse<T2>`. -/
def OtherStep2 (s u : EState2) : Prop :=
  u.typed2 = s.typed2 ∧ (u.requestType2 = true → s.requestType2 = true)

/-- States of the two-type entity reachable by interleaving `T2`-watcher
ticks with steps of the other actors. -/
inductive Reach2 : EState2 → EState2 → Prop
  | refl (s : EState2) : Reach2 s s
  | watcher {s t : EState2} : Reach2 s t → Reach2 s (tickT2 t)
  | other {s t u : EState2} : Reach2 s t → OtherStep2 t u → Reach2 s u

/-- Modelled from the spec (scenario A / round-trip; `serde_json` is an
external collaborator): the `serde_json::from_str::<u32>` decoder on the
plain integer-literal fragment of JSON — a nonempty all-digit string with no
redundant leading zero, whose value fits in 32 bits, decodes to that value;
everything else is a decode error. -/
def deserializeU32 (s : String) : Option Nat :=
  let cs := s.data
  if cs = [] then none
  else if cs.all (fun c => c.isDigit) then
    if cs.head? = some '0' ∧ cs ≠ ['0'] then none
    else
      let n := cs.foldl (fun a c => a * 10 + (c.toNat - 48)) 0
      if n < 4294967296 then some n else none
  else none

/-- A sample `ehttp::Response` whose body text is `"42"`. -/
def sampleResponse : Response :=
  ⟨200, some "42"⟩

/-- A pending entity (marker present, no typed holder) on which a success
carrier was freshly attached this tick. -/
def sampleSuccess : EState :=
  ⟨some sampleResponse, true, none, false, true, none⟩

/-- A pending entity on which a failure carrier with message `"boom"` was
freshly attached this tick. -/
def sampleFailure : EState :=
  ⟨none, false, some "boom", true, true, none⟩

/-- A cancelled entity: the marker was removed externally before any
carrier was observed; a success carrier then arrives fresh. -/
def sampleCancelled : EState :=
  ⟨some sampleResponse, true, none, false, false, none⟩

/-- An entity holding the marker while both carriers were freshly attached
on the same tick (the transport contract violation of §9). -/
def sampleDual : EState :=
  ⟨some sampleResponse, true, some "boom", true, true, none⟩

/-- A never-registered pending entity: marker present, success carrier
freshly attached, no typed holder. -/
def samplePendingForever : EState :=
  ⟨some sampleResponse, true, none, false, true, none⟩

/-- A two-type entity carrying only the `T1` marker while both raw carriers
are present and fresh for the `T2` watcher. -/
def sampleOnlyT1 : EState2 :=
  ⟨some sampleResponse, some "boom", true, true, true, false, none, none⟩

/-! ### Helper lemmas -/

theorem applyCmd_httpResponse (s : EState) (c : Cmd) :
    (applyCmd s c).httpResponse = s.httpResponse := by
  cases c <;> rfl

theorem applyCmd_httpResponseError (s : EState) (c : Cmd) :
    (applyCmd s c).httpResponseError = s.httpResponseError := by
  cases c <;> rfl

theorem applyCmds_httpResponse (cs : List Cmd) (s : EState) :
    (applyCmds s cs).httpResponse = s.httpResponse := by
  induction cs generalizing s with
  | nil => rfl
  | cons c cs ih =>
    calc (applyCmds s (c :: cs)).httpResponse
        = (applyCmds (applyCmd s c) cs).httpResponse := rfl
      _ = (applyCmd s c).httpResponse := ih (applyCmd s c)
      _ = s.httpResponse := applyCmd_httpResponse s c

theorem applyCmds_httpResponseError (cs : List Cmd) (s : EState) :
    (applyCmds s cs).httpResponseError = s.httpResponseError := by
  induction cs generalizing s with
  | nil => rfl
  | cons c cs ih =>
    calc (applyCmds s (c :: cs)).httpResponseError
        = (applyCmds (applyCmd s c) cs).httpResponseError := rfl
      _ = (applyCmd s c).httpResponseError := ih (applyCmd s c)
      _ = s.httpResponseError := applyCmd_httpResponseError s c

/-- The watcher's commands never touch the raw carriers. -/
theorem tick_httpResponse (s : EState) :
    (tick s).httpResponse = s.httpResponse := by
  simp [tick, clearAdded, applyCmds_httpResponse]

theorem tick_httpResponseError (s : EState) :
    (tick s).httpResponseError = s.httpResponseError := by
  simp [tick, clearAdded, applyCmds_httpResponseError]

/-- Without the pending marker neither query of `handle_typed_response`
matches the entity, so the system queues no commands. -/
theorem handle_nil_of_not_pending (s : EState) (h : s.requestType = false) :
    handle_typed_response s = [] := by
  unfold handle_typed_response successCmds failureCmds
  cases hr : s.httpResponse <;> cases he : s.httpResponseError <;> simp [h]

/-- Without the pending marker a tick only consumes the freshness flags. -/
theorem tick_not_pending (s : EState) (h : s.requestType = false) :
    tick s = clearAdded s := by
  simp [tick, handle_nil_of_not_pending s h, applyCmds]

/-- Iterating the watcher on an entity without the pending marker never
changes the typed holder, the marker, or the carriers. -/
theorem iterate_tick_frame (s : EState) (h : s.requestType = false) (n : Nat) :
    (tick^[n] s).requestType = false ∧
      (tick^[n] s).typedResponse = s.typedResponse ∧
      (tick^[n] s).httpResponse = s.httpResponse ∧
      (tick^[n] s).httpResponseError = s.httpResponseError := by
  induction n with
  | zero => exact ⟨h, rfl, rfl, rfl⟩
  | succ n ih =>
    obtain ⟨h1, h2, h3, h4⟩ := ih
    rw [Function.iterate_succ_apply', tick_not_pending _ h1]
    exact ⟨h1, h2, h3, h4⟩

/-- On a pending entity with a freshly added success carrier and no failure
carrier, one tick finalizes: the typed holder is `Ok(payload)`, the marker
is gone, the flags are consumed. -/
theorem tick_success_eq (s : EState) (r : Response)
    (hresp : s.httpResponse = some r) (hfresh : s.respAdded = true)
    (hmark : s.requestType = true) (herr : s.httpResponseError = none) :
    tick s = { s with respAdded := false, errAdded := false,
                      requestType := false,
                      typedResponse := some ⟨Except.ok r⟩ } := by
  simp [tick, handle_typed_response, successCmds, failureCmds, hresp, hfresh,
    hmark, herr, applyCmds, applyCmd, clearAdded]

/-- On a pending entity with a freshly added failure carrier and no success
carrier, one tick finalizes: the typed holder is `Err(message)`, the marker
is gone, the flags are consumed. -/
theorem tick_failure_eq (s : EState) (msg : String)
    (herr : s.httpResponseError = some msg) (hfresh : s.errAdded = true)
    (hmark : s.requestType = true) (hresp : s.httpResponse = none) :
    tick s = { s with respAdded := false, errAdded := false,
                      requestType := false,
                      typedResponse := some ⟨Except.error msg⟩ } := by
  simp [tick, handle_typed_response, successCmds, failureCmds, herr, hfresh,
    hmark, hresp, applyCmds, applyCmd, clearAdded]

/-- Without the T2 marker, a run of the T2 watcher leaves every component of
the two-type entity unchanged; only its own freshness bookkeeping is
consumed. -/
theorem tickT2_frame (w : EState2) (h : w.requestType2 = false) :
    tickT2 w = { w with respAdded2 := false, errAdded2 := false } := by
  have hv : (viewT2 w).requestType = false := h
  simp only [tickT2]
  rw [tick_not_pending _ hv]
  simp [clearAdded, viewT2]

theorem bool_false_of_imp {a b : Bool} (h : a = true → b = true)
    (hb : b = false) : a = false := by
  cases a
  · rfl
  · rw [hb] at h
    exact Bool.noConfusion (h rfl)

/-! ### Claims -/

/-- C1: for every entity that holds the pending marker `RequestType<T>` and
on which a raw success carrier (`HttpResponse`) was freshly added this tick,
the watcher inserts exactly one `TypedResponse<T>` whose `result` is `Ok` of
the carrier's payload and removes `RequestType<T>`: after one tick the typed
holder is present (the single `typedResponse` slot is occupied) and the
pending marker is absent. -/
theorem c1_success_finalize (s : EState) (r : Response)
    (hresp : s.httpResponse = some r) (hfresh : s.respAdded = true)
    (hmark : s.requestType = true) (herr : s.httpResponseError = none) :
    (tick s).typedResponse = some ⟨Except.ok r⟩ ∧
      (tick s).requestType = false := by
  rw [tick_success_eq s r hresp hfresh hmark herr]
  exact ⟨rfl, rfl⟩

/-- Witness for C1: the concrete pending entity `sampleSuccess`. -/
theorem c1_success_finalize_witness :
    (tick sampleSuccess).typedResponse = some ⟨Except.ok sampleResponse⟩ ∧
      (tick sampleSuccess).requestType = false :=
  c1_success_finalize sampleSuccess sampleResponse rfl rfl rfl rfl

/-- C2: for every entity that holds the pending marker and on which a raw
failure carrier (`HttpResponseError`) was freshly added this tick, the
watcher inserts a `TypedResponse<T>` whose `result` is `Err` of the
carrier's message and removes `RequestType<T>`; on such a holder `parse`
returns `none` regardless of the deserializer. -/
theorem c2_failure_finalize (s : EState) (msg : String)
    (herr : s.httpResponseError = some msg) (hfresh : s.errAdded = true)
    (hmark : s.requestType = true) (hnofresh : s.respAdded = false) :
    (tick s).typedResponse = some ⟨Except.error msg⟩ ∧
      (tick s).requestType = false ∧
      ∀ (T : Type) (deserialize : String → Option T),
        TypedResponse.parse deserialize ⟨Except.error msg⟩ = none := by
  refine ⟨?_, ?_, fun T deserialize => rfl⟩ <;>
    cases hr : s.httpResponse <;>
      simp [tick, handle_typed_response, successCmds, failureCmds, hr, herr,
        hfresh, hmark, hnofresh, applyCmds, applyCmd, clearAdded]

/-- Witness for C2: the concrete failed entity `sampleFailure`,
deserializer `deserializeU32`. -/
theorem c2_failure_finalize_witness :
    (tick sampleFailure).typedResponse = some ⟨Except.error "boom"⟩ ∧
      (tick sampleFailure).requestType = false ∧
      TypedResponse.parse deserializeU32 ⟨Except.error "boom"⟩ = none :=
  ⟨(c2_failure_finalize sampleFailure "boom" rfl rfl rfl rfl).1,
    (c2_failure_finalize sampleFailure "boom" rfl rfl rfl rfl).2.1,
    (c2_failure_finalize sampleFailure "boom" rfl rfl rfl rfl).2.2
      Nat deserializeU32⟩

/-- C3: detection is edge-triggered, for either carrier kind.  On an entity
whose raw carrier — success or failure — is attached exactly once (fresh
this tick, the other carrier absent, holder absent), the watcher queues
commands on this tick, finalizing to `Ok(payload)` or `Err(message)`
accordingly — and on every later tick it queues none: the typed holder, the
absent marker and both carriers never change again; the Finalized state,
`Ok`- or `Err`-valued, is terminal. -/
theorem c3_edge_triggered (s : EState) (res : Except String Response)
    (hmark : s.requestType = true) (_hty : s.typedResponse = none)
    (hcase :
      (∃ r, res = Except.ok r ∧ s.httpResponse = some r ∧
        s.respAdded = true ∧ s.httpResponseError = none) ∨
      (∃ msg, res = Except.error msg ∧ s.httpResponseError = some msg ∧
        s.errAdded = true ∧ s.httpResponse = none)) :
    handle_typed_response s ≠ [] ∧
      (tick s).typedResponse = some ⟨res⟩ ∧
      (tick s).requestType = false ∧
      ∀ n : Nat,
        handle_typed_response (tick^[n] (tick s)) = [] ∧
        (tick^[n] (tick s)).typedResponse = some ⟨res⟩ ∧
        (tick^[n] (tick s)).requestType = false ∧
        (tick^[n] (tick s)).httpResponse = s.httpResponse ∧
        (tick^[n] (tick s)).httpResponseError = s.httpResponseError := by
  have hmain : tick s =
      { s with respAdded := false, errAdded := false,
               requestType := false, typedResponse := some ⟨res⟩ } := by
    rcases hcase with ⟨r, hres, hresp, hfresh, herr⟩ |
      ⟨msg, hres, herr, hfresh, hresp⟩
    · rw [hres]
      exact tick_success_eq s r hresp hfresh hmark herr
    · rw [hres]
      exact tick_failure_eq s msg herr hfresh hmark hresp
  have hfire : handle_typed_response s ≠ [] := by
    rcases hcase with ⟨r, hres, hresp, hfresh, herr⟩ |
      ⟨msg, hres, herr, hfresh, hresp⟩
    · simp [handle_typed_response, successCmds, hresp, hfresh, hmark]
    · simp [handle_typed_response, successCmds, failureCmds, hresp, herr,
        hfresh, hmark]
  refine ⟨hfire, ?_, ?_, ?_⟩
  · rw [hmain]
  · rw [hmain]
  · intro n
    have hpost : (tick s).requestType = false := by rw [hmain]
    obtain ⟨h1, h2, h3, h4⟩ := iterate_tick_frame (tick s) hpost n
    refine ⟨handle_nil_of_not_pending _ h1, ?_, h1, ?_, ?_⟩
    · rw [h2, hmain]
    · rw [h3, hmain]
    · rw [h4, hmain]

/-- Witness for C3: both carrier kinds — `sampleSuccess` finalizing to `Ok`
and `sampleFailure` finalizing to `Err` — each checked three ticks after
finalize. -/
theorem c3_edge_triggered_witness :
    ((tick^[3] (tick sampleSuccess)).typedResponse =
        some ⟨Except.ok sampleResponse⟩ ∧
      (tick^[3] (tick sampleSuccess)).requestType = false ∧
      handle_typed_response (tick^[3] (tick sampleSuccess)) = []) ∧
    ((tick^[3] (tick sampleFailure)).typedResponse =
        some ⟨Except.error "boom"⟩ ∧
      (tick^[3] (tick sampleFailure)).requestType = false ∧
      handle_typed_response (tick^[3] (tick sampleFailure)) = []) :=
  ⟨⟨((c3_edge_triggered sampleSuccess (Except.ok sampleResponse) rfl rfl
        (Or.inl ⟨sampleResponse, rfl, rfl, rfl, rfl⟩)).2.2.2 3).2.1,
     ((c3_edge_triggered sampleSuccess (Except.ok sampleResponse) rfl rfl
        (Or.inl ⟨sampleResponse, rfl, rfl, rfl, rfl⟩)).2.2.2 3).2.2.1,
     ((c3_edge_triggered sampleSuccess (Except.ok sampleResponse) rfl rfl
        (Or.inl ⟨sampleResponse, rfl, rfl, rfl, rfl⟩)).2.2.2 3).1⟩,
   ⟨((c3_edge_triggered sampleFailure (Except.error "boom") rfl rfl
        (Or.inr ⟨"boom", rfl, rfl, rfl, rfl⟩)).2.2.2 3).2.1,
     ((c3_edge_triggered sampleFailure (Except.error "boom") rfl rfl
        (Or.inr ⟨"boom", rfl, rfl, rfl, rfl⟩)).2.2.2 3).2.2.1,
     ((c3_edge_triggered sampleFailure (Except.error "boom") rfl rfl
        (Or.inr ⟨"boom", rfl, rfl, rfl, rfl⟩)).2.2.2 3).1⟩⟩

/-- C4: `parse` returns `none` in exactly three cases — stored result is
`Err`, result is `Ok` but the response has no extractable text, or the text
fails the structured decode — and returns `some` of the decoded value only
on full success; in all three failure cases its return value is the same
`none`, so they are indistinguishable from the return value alone. -/
theorem c4_parse_characterization (T : Type) (deserialize : String → Option T)
    (tr : TypedResponse) :
    (TypedResponse.parse deserialize tr = none ↔
      (∃ msg, tr.result = Except.error msg) ∨
      (∃ r, tr.result = Except.ok r ∧ r.text = none) ∨
      (∃ r str, tr.result = Except.ok r ∧ r.text = some str ∧
        deserialize str = none)) ∧
    ∀ v : T, TypedResponse.parse deserialize tr = some v ↔
      ∃ r str, tr.result = Except.ok r ∧ r.text = some str ∧
        deserialize str = some v := by
  obtain ⟨res⟩ := tr
  cases res with
  | error msg => simp [TypedResponse.parse]
  | ok r =>
    cases htext : r.text with
    | none => simp [TypedResponse.parse, htext]
    | some str =>
      cases hdec : deserialize str with
      | none => simp [TypedResponse.parse, htext, hdec]
      | some val =>
        constructor
        · simp [TypedResponse.parse, htext, hdec]
        · intro v
          simp [TypedResponse.parse, htext, hdec, eq_comm]

/-- C5: round-trip — if a raw success carrier whose text is a valid
structured encoding of `v` (the deserializer decodes it to `v`) is freshly
added to a pending entity, then after finalize the inserted
`TypedResponse<T>` parses to exactly `v`. -/
theorem c5_roundtrip (T : Type) (deserialize : String → Option T) (v : T)
    (s : EState) (r : Response) (str : String)
    (hresp : s.httpResponse = some r) (htext : r.text = some str)
    (hdec : deserialize str = some v) (hfresh : s.respAdded = true)
    (hmark : s.requestType = true) (herr : s.httpResponseError = none) :
    (tick s).typedResponse = some ⟨Except.ok r⟩ ∧
      TypedResponse.parse deserialize ⟨Except.ok r⟩ = some v := by
  constructor
  · rw [tick_success_eq s r hresp hfresh hmark herr]
  · simp [TypedResponse.parse, htext, hdec]

/-- Witness for C5, scenario A: pending `u32` entity, body text `"42"`,
decode returns `42`. -/
theorem c5_roundtrip_witness :
    (tick sampleSuccess).typedResponse = some ⟨Except.ok sampleResponse⟩ ∧
      TypedResponse.parse deserializeU32 ⟨Except.ok sampleResponse⟩ =
        some 42 :=
  c5_roundtrip Nat deserializeU32 42 sampleSuccess sampleResponse "42"
    rfl rfl (by decide) rfl rfl rfl

/-- C6: type isolation.  On a two-type entity that carries only the `T1`
pending marker, across any interleaving of `T2`-watcher ticks and steps of
the other actors, the `T2` watcher never inserts a `TypedResponse<T2>`, its
queries never match (it queues no commands), and a run of it leaves every
component of the entity unchanged — even while raw carriers are present and
fresh. -/
theorem c6_type_isolation (s t : EState2) (hmark : s.requestType2 = false)
    (hty : s.typed2 = none) (h : Reach2 s t) :
    t.typed2 = none ∧ t.requestType2 = false ∧
      handle_typed_response (viewT2 t) = [] ∧
      tickT2 t = { t with respAdded2 := false, errAdded2 := false } := by
  have hinv : t.typed2 = none ∧ t.requestType2 = false := by
    induction h with
    | refl => exact ⟨hty, hmark⟩
    | watcher h ih =>
      obtain ⟨h1, h2⟩ := ih
      rw [tickT2_frame _ h2]
      exact ⟨h1, h2⟩
    | other h hstep ih =>
      obtain ⟨h1, h2⟩ := ih
      obtain ⟨he1, he2⟩ := hstep
      exact ⟨he1.trans h1, bool_false_of_imp he2 h2⟩
  obtain ⟨h1, h2⟩ := hinv
  exact ⟨h1, h2, handle_nil_of_not_pending (viewT2 t) h2, tickT2_frame t h2⟩

/-- Witness for C6: the concrete entity `sampleOnlyT1` after one run of the
`T2` watcher. -/
theorem c6_type_isolation_witness :
    (tickT2 sampleOnlyT1).typed2 = none ∧
      (tickT2 sampleOnlyT1).requestType2 = false ∧
      handle_typed_response (viewT2 (tickT2 sampleOnlyT1)) = [] ∧
      tickT2 (tickT2 sampleOnlyT1) =
        { tickT2 sampleOnlyT1 with respAdded2 := false, errAdded2 := false } :=
  c6_type_isolation sampleOnlyT1 (tickT2 sampleOnlyT1) rfl rfl
    (Reach2.watcher (Reach2.refl sampleOnlyT1))

/-- C7: cancellation by marker removal.  If the pending marker is absent
and no typed holder exists, then along any interleaving of watcher ticks
and external steps (which may attach carriers but never re-add the marker),
no `TypedResponse<T>` is ever inserted and the marker stays absent. -/
theorem c7_cancellation (s t : EState) (hmark : s.requestType = false)
    (hty : s.typedResponse = none) (h : Reach s t) :
    t.typedResponse = none ∧ t.requestType = false := by
  induction h with
  | refl => exact ⟨hty, hmark⟩
  | watcher h ih =>
    obtain ⟨h1, h2⟩ := ih
    rw [tick_not_pending _ h2]
    exact ⟨h1, h2⟩
  | external h hstep ih =>
    obtain ⟨h1, h2⟩ := ih
    obtain ⟨he1, he2⟩ := hstep
    exact ⟨he1.trans h1, bool_false_of_imp he2 h2⟩

/-- Witness for C7: the concrete cancelled entity `sampleCancelled` after
one watcher tick. -/
theorem c7_cancellation_witness :
    (tick sampleCancelled).typedResponse = none ∧
      (tick sampleCancelled).requestType = false :=
  c7_cancellation sampleCancelled (tick sampleCancelled) rfl rfl
    (Reach.watcher (Reach.refl sampleCancelled))

/-- C8: dual-carrier resolution.  When both carriers are freshly added on
the same tick to a marked entity, both passes fire: the queued command list
is the success pass's commands followed by the failure pass's, and after
applying them in order the surviving `TypedResponse<T>` holds `Err` of the
failure message (the later insert overwrites the earlier), with the marker
removed. -/
theorem c8_dual_carrier (s : EState) (r : Response) (msg : String)
    (hresp : s.httpResponse = some r) (hrf : s.respAdded = true)
    (herr : s.httpResponseError = some msg) (hef : s.errAdded = true)
    (hmark : s.requestType = true) :
    handle_typed_response s =
      [Cmd.insertTyped ⟨Except.ok r⟩, Cmd.removeRequestType,
        Cmd.insertTyped ⟨Except.error msg⟩, Cmd.removeRequestType] ∧
      (tick s).typedResponse = some ⟨Except.error msg⟩ ∧
      (tick s).requestType = false := by
  refine ⟨?_, ?_, ?_⟩ <;>
    simp [tick, handle_typed_response, successCmds, failureCmds, hresp, hrf,
      herr, hef, hmark, applyCmds, applyCmd, clearAdded]

/-- Witness for C8: the concrete dual-carrier entity `sampleDual`. -/
theorem c8_dual_carrier_witness :
    handle_typed_response sampleDual =
      [Cmd.insertTyped ⟨Except.ok sampleResponse⟩, Cmd.removeRequestType,
        Cmd.insertTyped ⟨Except.error "boom"⟩, Cmd.removeRequestType] ∧
      (tick sampleDual).typedResponse = some ⟨Except.error "boom"⟩ ∧
      (tick sampleDual).requestType = false :=
  c8_dual_carrier sampleDual sampleResponse "boom" rfl rfl rfl rfl rfl

/-- C9: unregistered-type silent defect.  When `register_request_type::<T>`
was never called, frames run the schedule without a `T` watcher and only
external steps occur; the entity keeps its `RequestType<T>` marker and never
receives a `TypedResponse<T>`, on every subsequent tick, with no error
reported (nothing in the model produces one). -/
theorem c9_unregistered_pending (s t : EState) (hmark : s.requestType = true)
    (hty : s.typedResponse = none) (h : UnregisteredReach s t) :
    t.requestType = true ∧ t.typedResponse = none := by
  induction h with
  | refl => exact ⟨hmark, hty⟩
  | frame h ih => exact ih
  | external h hstep ih =>
    obtain ⟨h1, h2⟩ := ih
    obtain ⟨he1, he2⟩ := hstep
    exact ⟨he2.trans h1, he1.trans h2⟩

/-- Witness for C9: `samplePendingForever` after an empty-schedule frame and
an external step that clears the freshness flag; it is still pending. -/
theorem c9_unregistered_pending_witness :
    (EState.mk (some sampleResponse) false none false true none).requestType
        = true ∧
      (EState.mk (some sampleResponse) false none false true
        none).typedResponse = none :=
  c9_unregistered_pending samplePendingForever
    (EState.mk (some sampleResponse) false none false true none) rfl rfl
    (UnregisteredReach.external
      (UnregisteredReach.frame (UnregisteredReach.refl samplePendingForever))
      ⟨rfl, rfl⟩)

/-- C10: `parse` takes the holder by shared borrow and is a pure function of
it: a call returns the holder unchanged, and a second call against the
returned holder yields a value equal to the first call's. -/
theorem c10_parse_idempotent (T : Type) (deserialize : String → Option T)
    (tr : TypedResponse) :
    (parseCall deserialize tr).2 = tr ∧
      (parseCall deserialize (parseCall deserialize tr).2).1 =
        (parseCall deserialize tr).1 :=
  ⟨rfl, rfl⟩

end BevyHttpClient.Typed
